import Mathlib

/-!
Shallow embedding of the MPESA payment transaction processing and
reconciliation engine of the chuopay backend
(src/contributions/models.py, mpesa_service.py, mpesa_views.py, tasks.py).

Money amounts (Django DecimalField values, and the floats the views parse)
are embedded as exact rationals; timestamps as natural numbers.  Stateful
Django ORM code is embedded as explicit state passing over a `LedgerState`
holding one `StudentContribution` and its list of `PaymentHistory` rows
(list position = row id); fallible code returns `Except String`.  Status
enums stored in Django CharFields are embedded as the literal strings the
code writes.
-/

namespace Chuopay

set_option maxRecDepth 16000

/-- Kernel-reducible embedding of Python `str.startswith` / Lean
`String.startsWith` (the byte-offset implementation does not reduce in the
kernel, so we compare the character lists). -/
def strStarts (s p : String) : Bool :=
  p.data.isPrefixOf s.data

/-- Kernel-reducible `String.drop`. -/
def strDrop (s : String) (n : Nat) : String :=
  String.mk (s.data.drop n)

/-- Kernel-reducible `String.length` / Python `len`. -/
def strLen (s : String) : Nat :=
  s.data.length

/-- StudentContribution (models.py): the fields the payment subsystem reads
and writes.  `payment_status` holds the literal CharField value; `confirmed`
models `confirmed_by and confirmed_at` both being set; `event_overdue`
models `event.is_overdue`. -/
structure StudentContribution where
  amount_required : ℚ
  amount_paid : ℚ
  payment_status : String
  confirmed : Bool
  event_overdue : Bool
  deriving DecidableEq

/-- PaymentHistory (models.py:413-508): the fields the payment subsystem
reads and writes.  `status` ranges over the STATUS_CHOICES strings
pending / completed / failed / cancelled / refunded. -/
structure PaymentHistory where
  amount : ℚ
  payment_method : String
  transaction_id : String
  status : String
  external_id : String
  external_status : String
  processed_at : Option Nat
  created_at : Nat
  notes : String
  deriving DecidableEq

/-- The per-contribution ledger: one contribution and its transaction rows,
row id = list index. -/
structure LedgerState where
  contribution : StudentContribution
  transactions : List PaymentHistory
  deriving DecidableEq

/-- StudentContribution.update_payment_status (models.py:386-398). -/
def update_payment_status (c : StudentContribution) : StudentContribution :=
  { c with payment_status :=
      if c.confirmed then "confirmed"
      else if c.amount_required ≤ c.amount_paid then "paid"
      else if 0 < c.amount_paid then "partial"
      else if c.event_overdue then "overdue"
      else "pending" }

/-- PaymentHistory.save override (models.py:479-500): the effect one save of
a transaction row has on the owning contribution.  `is_new` is `self.pk is
None`; `old_amount` is the amount currently stored in the database for this
row (models.py:484-489); `tx` is the row as being saved.  Ends with
`contribution.update_payment_status()` (models.py:500). -/
def save_hook (c : StudentContribution) (is_new : Bool) (old_amount : ℚ)
    (tx : PaymentHistory) : StudentContribution :=
  let c' :=
    if is_new = true ∧ tx.status = "completed" then
      { c with amount_paid := c.amount_paid + tx.amount }
    else if is_new = false ∧ tx.status = "completed" then
      { c with amount_paid := c.amount_paid - old_amount + tx.amount }
    else c
  update_payment_status c'

/-- MPESAService.format_phone_number (mpesa_service.py:148-167): keep the
digits, map a leading local 0 to 254, drop a leading + (dead after the digit
filter), and prepend 254 when absent. -/
def format_phone_number (phone_number : String) : String :=
  let phone := String.mk (phone_number.data.filter Char.isDigit)
  let phone := if strStarts phone "0" then "254" ++ strDrop phone 1 else phone
  let phone := if strStarts phone "+" then strDrop phone 1 else phone
  let phone := if ¬ strStarts phone "254" then "254" ++ phone else phone
  phone

/-- MPESAService.validate_phone_number (mpesa_service.py:261-274). -/
def validate_phone_number (phone_number : String) : Except String String :=
  let formatted := format_phone_number phone_number
  if ¬ strStarts formatted "254" then
    Except.error "Invalid phone number format"
  else if strLen formatted ≠ 12 then
    Except.error "Invalid phone number length"
  else
    Except.ok formatted

/-- The fields MPESAService.process_callback reads from the provider webhook
payload (mpesa_service.py:174-180). -/
structure CallbackData where
  CheckoutRequestID : String
  ResultCode : Int
  ResultDesc : String
  Amount : ℚ
  MpesaReceiptNumber : String
  deriving DecidableEq

/-- `PaymentHistory.objects.get(external_id=ck, payment_method='mpesa_stk')`
(mpesa_service.py:183-187): index and row of the first matching transaction. -/
def lookup_payment (ck : String) : List PaymentHistory → Option (Nat × PaymentHistory)
  | [] => none
  | t :: ts =>
      if t.external_id = ck ∧ t.payment_method = "mpesa_stk" then some (0, t)
      else (lookup_payment ck ts).map (fun p => (p.1 + 1, p.2))

/-- MPESAService.process_callback (mpesa_service.py:169-227).  `now` is the
`timezone.now()` written into processed_at.  Returns the new ledger state and
the `success` flag of the returned dict; `.error` models the ValidationError
raised when no transaction matches the checkout request id.  On success the
row is saved (running the PaymentHistory.save override) and then the handler
separately runs `contribution.amount_paid += payment_history.amount;
contribution.save()` (mpesa_service.py:201-204), a plain save with no status
recomputation. -/
def process_callback (now : Nat) (cb : CallbackData) (s : LedgerState) :
    Except String (LedgerState × Bool) :=
  match lookup_payment cb.CheckoutRequestID s.transactions with
  | none => Except.error ("Payment history not found for " ++ cb.CheckoutRequestID)
  | some (i, tx) =>
      if cb.ResultCode = 0 then
        let tx' : PaymentHistory :=
          { tx with status := "completed", external_status := "success",
                    transaction_id := cb.MpesaReceiptNumber, processed_at := some now }
        let c1 := save_hook s.contribution false tx.amount tx'
        let c2 := { c1 with amount_paid := c1.amount_paid + tx'.amount }
        Except.ok ({ contribution := c2, transactions := s.transactions.set i tx' }, true)
      else
        let tx' : PaymentHistory :=
          { tx with status := "failed", external_status := "failed",
                    processed_at := some now,
                    notes := "Payment failed: " ++ cb.ResultDesc }
        let c1 := save_hook s.contribution false tx.amount tx'
        Except.ok ({ contribution := c1, transactions := s.transactions.set i tx' }, false)

/-- The observable outcome of one run of the check_mpesa_payment_status
task (tasks.py:11-88): its return string, a scheduled retry with its
countdown, or the unhandled-id case. -/
inductive PollOutcome
  | notFound
  | alreadyProcessed
  | completedOk
  | failedPayment
  | retryScheduled (countdown : Nat)
  | timedOut
  deriving DecidableEq

/-- check_mpesa_payment_status (tasks.py:11-88).  `retries` is
`self.request.retries` and the decorator sets `max_retries = 3`;
`result_code` / `result_desc` are the ResultCode / ResultDesc of the
provider's status-query response (`none` models a payload without the
field); `id` is the payment_history_id.  Rows already in a terminal state
are skipped (tasks.py:20-22). -/
def check_mpesa_payment_status (now : Nat) (retries : Nat)
    (result_code : Option Int) (result_desc : String) (id : Nat)
    (s : LedgerState) : LedgerState × PollOutcome :=
  match s.transactions[id]? with
  | none => (s, PollOutcome.notFound)
  | some tx =>
      if tx.status = "completed" ∨ tx.status = "failed" ∨ tx.status = "cancelled" then
        (s, PollOutcome.alreadyProcessed)
      else if result_code = some 0 then
        let tx' : PaymentHistory :=
          { tx with status := "completed", external_status := "success",
                    processed_at := some now }
        let c1 := save_hook s.contribution false tx.amount tx'
        let c2 := { c1 with amount_paid := c1.amount_paid + tx.amount }
        ({ contribution := c2, transactions := s.transactions.set id tx' },
         PollOutcome.completedOk)
      else if result_code = some 1 then
        let tx' : PaymentHistory :=
          { tx with status := "failed", external_status := "failed",
                    processed_at := some now,
                    notes := "Payment failed: " ++ result_desc }
        let c1 := save_hook s.contribution false tx.amount tx'
        ({ contribution := c1, transactions := s.transactions.set id tx' },
         PollOutcome.failedPayment)
      else
        if retries < 3 then
          (s, PollOutcome.retryScheduled (60 * 2 ^ retries))
        else
          let tx' : PaymentHistory :=
            { tx with status := "failed", external_status := "timeout",
                      processed_at := some now,
                      notes := "Payment status check timed out after max retries" }
          let c1 := save_hook s.contribution false tx.amount tx'
          ({ contribution := c1, transactions := s.transactions.set id tx' },
           PollOutcome.timedOut)

/-- Loop body of cleanup_pending_payments (tasks.py:105-110): each selected
row is cancelled and saved (running the PaymentHistory.save override on the
contribution); processed_at is not touched. -/
def cleanup_go (cutoff : Nat) (c : StudentContribution) :
    List PaymentHistory → StudentContribution × List PaymentHistory
  | [] => (c, [])
  | t :: ts =>
      if t.status = "pending" ∧ t.payment_method = "mpesa_stk" ∧ t.created_at < cutoff then
        let t' : PaymentHistory :=
          { t with status := "cancelled",
                   notes := "Payment cancelled due to timeout (24 hours)" }
        let r := cleanup_go cutoff (save_hook c false t.amount t') ts
        (r.1, t' :: r.2)
      else
        let r := cleanup_go cutoff c ts
        (r.1, t :: r.2)

/-- cleanup_pending_payments (tasks.py:91-116): cancel mpesa_stk rows that
have been pending for more than 24 hours (86400 seconds). -/
def cleanup_pending_payments (now : Nat) (s : LedgerState) : LedgerState :=
  let r := cleanup_go (now - 86400) s.contribution s.transactions
  { contribution := r.1, transactions := r.2 }

/-- Loop body of retry_failed_payments (tasks.py:134-144): each selected row
is reset to pending and saved; processed_at is not cleared. -/
def retry_go (cutoff : Nat) (c : StudentContribution) :
    List PaymentHistory → StudentContribution × List PaymentHistory
  | [] => (c, [])
  | t :: ts =>
      if t.status = "failed" ∧ t.payment_method = "mpesa_stk" ∧ cutoff ≤ t.created_at ∧
          (t.external_status = "timeout" ∨ t.external_status = "network_error") then
        let t' : PaymentHistory :=
          { t with status := "pending", external_status := "retrying",
                   notes := "Retrying payment after previous failure" }
        let r := retry_go cutoff (save_hook c false t.amount t') ts
        (r.1, t' :: r.2)
      else
        let r := retry_go cutoff c ts
        (r.1, t :: r.2)

/-- retry_failed_payments (tasks.py:119-150): reset to pending the mpesa_stk
rows that failed with external_status timeout / network_error within the
last hour (3600 seconds). -/
def retry_failed_payments (now : Nat) (s : LedgerState) : LedgerState :=
  let r := retry_go (now - 3600) s.contribution s.transactions
  { contribution := r.1, transactions := r.2 }

/-- Python `int()` applied to an exact decimal/float amount: truncation
toward zero (mpesa_service.py:101). -/
def pyInt (q : ℚ) : Int :=
  if 0 ≤ q then ⌊q⌋ else -⌊-q⌋

/-- The provider's synchronous answer to the STK push request.  `ok` carries
the body fields the service reads; `httpError` models every path on which
requests raises (token fetch failure, transport error, or a non-2xx answer
turned into an exception by raise_for_status), all of which the service
re-raises as a ValidationError (mpesa_service.py:143-146). -/
inductive GatewayResult
  | ok (CheckoutRequestID : String) (MerchantRequestID : String)
  | httpError (desc : String)
  deriving DecidableEq

/-- The fields of the STK push request payload that carry the amount and
payer (mpesa_service.py:96-108); `Amount` is `int(amount)`. -/
structure STKPayload where
  Amount : Int
  PhoneNumber : String
  AccountReference : String
  deriving DecidableEq

/-- The dict MPESAService.initiate_stk_push returns on success
(mpesa_service.py:135-141), plus the payload it posted. -/
structure InitiateResult where
  payload : STKPayload
  checkout_request_id : String
  merchant_request_id : String
  payment_history_id : Nat
  deriving DecidableEq

/-- MPESAService.initiate_stk_push (mpesa_service.py:67-146).  `gw` is the
provider's synchronous response, `created_at` the creation timestamp of the
new row.  On gateway failure the ValidationError propagates and nothing is
created; on success `PaymentHistory.objects.create` runs the overridden save
with a pending status. -/
def service_initiate_stk_push (gw : GatewayResult) (phone_number : String)
    (amount : ℚ) (reference : String) (created_at : Nat) (s : LedgerState) :
    Except String (LedgerState × InitiateResult) :=
  let formatted_phone := format_phone_number phone_number
  match gw with
  | GatewayResult.httpError d => Except.error ("STK Push failed: " ++ d)
  | GatewayResult.ok ckid mrid =>
      let payload : STKPayload :=
        { Amount := pyInt amount, PhoneNumber := formatted_phone,
          AccountReference := reference }
      let tx : PaymentHistory :=
        { amount := amount, payment_method := "mpesa_stk",
          transaction_id := ckid, status := "pending", external_id := ckid,
          external_status := "", processed_at := none,
          created_at := created_at,
          notes := "STK Push initiated for " ++ formatted_phone }
      let c1 := save_hook s.contribution true 0 tx
      Except.ok
        ({ contribution := c1, transactions := s.transactions ++ [tx] },
         { payload := payload, checkout_request_id := ckid,
           merchant_request_id := mrid,
           payment_history_id := s.transactions.length })

/-- The request body of the initiate_stk_push view (mpesa_views.py:26-29);
`none` models an absent key. -/
structure InitiateRequest where
  contribution_id : Option Nat
  phone_number : Option String
  amount : Option ℚ
  deriving DecidableEq

/-- A DRF Response as the initiate view builds it: HTTP status plus the
`success` and `message` fields of the body. -/
structure ApiResponse where
  status : Nat
  success : Bool
  message : String
  deriving DecidableEq

/-- initiate_stk_push view (mpesa_views.py:19-98).  `contribution_exists`
models the `StudentContribution.objects.get` lookup; `gw` the provider
interaction; `created_at` the row timestamp.  Python's falsy check
`not all([contribution_id, phone_number, amount])` (mpesa_views.py:32)
treats 0 and the empty string like absent keys. -/
def view_initiate_stk_push (req : InitiateRequest) (contribution_exists : Bool)
    (gw : GatewayResult) (created_at : Nat) (s : LedgerState) :
    ApiResponse × LedgerState :=
  let falsy_id := match req.contribution_id with | none => true | some i => i == 0
  let falsy_phone := match req.phone_number with | none => true | some p => p == ""
  let falsy_amount := match req.amount with | none => true | some a => a == 0
  if falsy_id || falsy_phone || falsy_amount then
    ({ status := 400, success := false,
       message := "Missing required fields: contribution_id, phone_number, amount" }, s)
  else if ¬ contribution_exists then
    ({ status := 404, success := false, message := "Contribution not found" }, s)
  else
    match validate_phone_number (req.phone_number.getD "") with
    | Except.error msg => ({ status := 400, success := false, message := msg }, s)
    | Except.ok formatted_phone =>
        let amount_decimal := req.amount.getD 0
        if amount_decimal ≤ 0 then
          ({ status := 400, success := false, message := "Invalid amount" }, s)
        else
          let remaining_amount := s.contribution.amount_required - s.contribution.amount_paid
          if remaining_amount < amount_decimal then
            ({ status := 400, success := false,
               message := "Amount exceeds remaining contribution amount" }, s)
          else
            match service_initiate_stk_push gw formatted_phone amount_decimal
                ("CONT_" ++ toString (req.contribution_id.getD 0)) created_at s with
            | Except.error msg => ({ status := 400, success := false, message := msg }, s)
            | Except.ok (s', _) =>
                ({ status := 200, success := true,
                   message := "STK Push sent successfully" }, s')

/-- The webhook request body as the callback view sees it: either JSON that
fails to parse, or a parsed payload. -/
inductive WebhookBody
  | malformed
  | wellFormed (cb : CallbackData)
  deriving DecidableEq

/-- The JsonResponse of mpesa_callback: HTTP status plus the ResultCode /
ResultDesc body fields. -/
structure WebhookResponse where
  status : Nat
  ResultCode : Int
  ResultDesc : String
  deriving DecidableEq

/-- mpesa_callback view (mpesa_views.py:101-143): malformed JSON is answered
400 / ResultCode 1; a ValidationError from process_callback (such as an
unmatched checkout request id) is answered 400 / ResultCode 1 with the error
text; only successful processing is answered with the fixed success
envelope. -/
def mpesa_callback (now : Nat) (body : WebhookBody) (s : LedgerState) :
    WebhookResponse × LedgerState :=
  match body with
  | WebhookBody.malformed =>
      ({ status := 400, ResultCode := 1, ResultDesc := "Invalid JSON" }, s)
  | WebhookBody.wellFormed cb =>
      match process_callback now cb s with
      | Except.ok (s', _) =>
          ({ status := 200, ResultCode := 0, ResultDesc := "Success" }, s')
      | Except.error msg =>
          ({ status := 400, ResultCode := 1, ResultDesc := msg }, s)

/-- Sum of `amount` over the transaction rows whose status is completed. -/
def completed_sum (txs : List PaymentHistory) : ℚ :=
  (txs.filter (fun t => t.status == "completed")).foldr (fun t a => t.amount + a) 0

/-- The spec's core invariant: `amount_paid` equals the completed-transaction
sum. -/
def ledger_invariant (s : LedgerState) : Prop :=
  s.contribution.amount_paid = completed_sum s.transactions

instance (s : LedgerState) : Decidable (ledger_invariant s) :=
  inferInstanceAs (Decidable (s.contribution.amount_paid = completed_sum s.transactions))

/-- The resulting ledger state of one run of the initiate view (the
contribution exists in the database). -/
def apply_init (req : InitiateRequest) (gw : GatewayResult) (created_at : Nat)
    (s : LedgerState) : LedgerState :=
  (view_initiate_stk_push req true gw created_at s).2

/-- The resulting ledger state of one delivery of a parsed webhook payload. -/
def apply_callback (now : Nat) (cb : CallbackData) (s : LedgerState) : LedgerState :=
  (mpesa_callback now (WebhookBody.wellFormed cb) s).2

/-- The resulting ledger state of one run of the status-check task. -/
def apply_poll (now retries : Nat) (result_code : Option Int) (id : Nat)
    (s : LedgerState) : LedgerState :=
  (check_mpesa_payment_status now retries result_code "still pending" id s).1

/-- A consistent contribution before any MPESA activity (the fixture of
tests_mpesa.py: required 100, paid 0). -/
def contribution0 : StudentContribution :=
  { amount_required := 100, amount_paid := 0, payment_status := "pending",
    confirmed := false, event_overdue := false }

/-- Ledger with no transactions yet. -/
def state0 : LedgerState :=
  { contribution := contribution0, transactions := [] }

/-- A provider that accepts the push request. -/
def gw0 : GatewayResult :=
  GatewayResult.ok "ws_CO_123456789" "29115-34620561-1"

/-- An initiation request for 50 against contribution 1. -/
def req50 : InitiateRequest :=
  { contribution_id := some 1, phone_number := some "0700000000", amount := some 50 }

/-- The provider's success webhook for the initiated request. -/
def cb_ok : CallbackData :=
  { CheckoutRequestID := "ws_CO_123456789", ResultCode := 0,
    ResultDesc := "The service request is processed successfully.",
    Amount := 50, MpesaReceiptNumber := "MPESA123456" }

/-- Ledger after initiating the 50 payment: one pending row. -/
def state_init50 : LedgerState :=
  apply_init req50 gw0 1000 state0

/-- Ledger after the status-check task observes success for that row. -/
def state_poll_ok : LedgerState :=
  apply_poll 1200 0 (some 0) 0 state_init50

/-- Ledger after the provider's success webhook additionally arrives for the
row the poll already completed. -/
def state_poll_then_cb : LedgerState :=
  apply_callback 1500 cb_ok state_poll_ok

/-- Ledger after the success webhook is delivered once to the pending row. -/
def state_cb_once : LedgerState :=
  apply_callback 1500 cb_ok state_init50

/-- Ledger after the identical webhook payload is delivered a second time. -/
def state_cb_twice : LedgerState :=
  apply_callback 1500 cb_ok state_cb_once


/-- Scenario A of the spec: a contribution requiring 1000 with nothing paid,
not manually confirmed, event not overdue. -/
def contributionA : StudentContribution :=
  { amount_required := 1000, amount_paid := 0, payment_status := "pending",
    confirmed := false, event_overdue := false }

/-- Scenario A ledger before any transaction. -/
def stateA0 : LedgerState :=
  { contribution := contributionA, transactions := [] }

/-- Scenario A initiation request for 600. -/
def reqA : InitiateRequest :=
  { contribution_id := some 1, phone_number := some "0700000000", amount := some 600 }

/-- Scenario A success webhook for the 600 transaction. -/
def cbA : CallbackData :=
  { CheckoutRequestID := "ws_CO_123456789", ResultCode := 0,
    ResultDesc := "The service request is processed successfully.",
    Amount := 600, MpesaReceiptNumber := "MPESA123456" }

/-- Scenario A final ledger: initiate 600, then the success callback. -/
def stateA : LedgerState :=
  apply_callback 1500 cbA (apply_init reqA gw0 1000 stateA0)

/-- The pending 600 row exactly as Scenario A's initiation creates it. -/
def txA : PaymentHistory :=
  { amount := 600, payment_method := "mpesa_stk", transaction_id := "ws_CO_123456789",
    status := "pending", external_id := "ws_CO_123456789", external_status := "",
    processed_at := none, created_at := 1000,
    notes := "STK Push initiated for 254700000000" }

/-- A ledger holding Scenario A's contribution and its single pending 600
row: the generic starting point for task-level theorems. -/
def stateW : LedgerState :=
  { contribution := contributionA, transactions := [txA] }

/-- A success webhook whose checkout id matches no transaction row. -/
def cb_unmatched : CallbackData :=
  { CheckoutRequestID := "ws_CO_UNKNOWN", ResultCode := 0,
    ResultDesc := "The service request is processed successfully.",
    Amount := 50, MpesaReceiptNumber := "MPESA999999" }

/-- An initiation request with no amount field. -/
def req_missing : InitiateRequest :=
  { contribution_id := some 1, phone_number := some "0700000000", amount := none }

/-- C8: `format_phone_number` (the spec's normalizePhoneNumber) sends each of
the four inputs "0700000000", "+254700000000", "254700000000" and
"700000000" to the same normalized string. -/
theorem c8_phone_normalization_round_trip :
    format_phone_number "0700000000" = "254700000000" ∧
    format_phone_number "+254700000000" = "254700000000" ∧
    format_phone_number "254700000000" = "254700000000" ∧
    format_phone_number "700000000" = "254700000000" := by
  decide


/-- C1: the invariant `amount_paid = completed-transaction sum` holds before
and after initiate and after a successful poll, but a success callback
arriving for the transaction the poll already completed increments
`amount_paid` a second time: the sequence initiate, poll-success,
callback-success for one 50 transaction ends with `amount_paid = 100`
against a completed sum of 50, so the claimed invariant fails. -/
theorem c1_invariant_fails_when_callback_and_poll_both_succeed :
    ledger_invariant state0 ∧
    ledger_invariant state_init50 ∧
    ledger_invariant state_poll_ok ∧
    ¬ ledger_invariant state_poll_then_cb ∧
    state_poll_then_cb.contribution.amount_paid = 100 ∧
    completed_sum state_poll_then_cb.transactions = 50 := by
  with_unfolding_all decide

/-- C2: delivering the identical success webhook payload twice (with the
same timestamp) is not a no-op: the second delivery finds the transaction
already completed, yet re-runs the success branch and increments
`amount_paid` again, so the state after two deliveries differs from the
state after one. -/
theorem c2_replayed_callback_double_increments :
    state_cb_once.contribution.amount_paid = 50 ∧
    state_cb_twice.contribution.amount_paid = 100 ∧
    state_cb_twice ≠ state_cb_once := by
  with_unfolding_all decide


/-- C3: in Scenario A (amount_required 1000, amount_paid 0, not confirmed,
not overdue; initiate 600, then the provider's success callback) the code
ends with amount_paid = 600 but payment_status "pending", not the claimed
"partial": the status was recomputed by the transaction save hook before the
callback handler incremented amount_paid. -/
theorem c3_scenario_a_yields_pending_not_partial :
    stateA.contribution.amount_paid = 600 ∧
    stateA.contribution.payment_status = "pending" ∧
    stateA.contribution.payment_status ≠ "partial" := by
  with_unfolding_all decide

/-- C3 amended: for a not-confirmed, not-overdue contribution with nothing
paid and a positive requirement, applying a success callback to its (only)
transaction increases amount_paid by the transaction amount, but
payment_status is recomputed before the increment and therefore stays
"pending" regardless of the new amount. -/
theorem c3_status_recomputed_before_increment
    (c : StudentContribution) (tx : PaymentHistory) (cb : CallbackData) (now : Nat)
    (hmatch : tx.external_id = cb.CheckoutRequestID)
    (hmethod : tx.payment_method = "mpesa_stk")
    (hcode : cb.ResultCode = 0)
    (hconf : c.confirmed = false)
    (hover : c.event_overdue = false)
    (hpaid : c.amount_paid = 0)
    (hreq : 0 < c.amount_required) :
    ∃ s', process_callback now cb { contribution := c, transactions := [tx] } =
        Except.ok (s', true) ∧
      s'.contribution.amount_paid = tx.amount ∧
      s'.contribution.payment_status = "pending" := by
  simp only [process_callback, lookup_payment, hmatch, hmethod, hcode, and_self, if_true,
    save_hook, update_payment_status, hconf, hover, hpaid]
  refine ⟨_, rfl, ?_, ?_⟩
  · simp
  · simp [hreq.not_le]

/-- Witness for the C3 amended theorem: Scenario A's concrete contribution,
row and webhook. -/
theorem c3_status_recomputed_before_increment_witness :
    ∃ s', process_callback 1500 cbA
        { contribution := contributionA, transactions := [txA] } =
        Except.ok (s', true) ∧
      s'.contribution.amount_paid = txA.amount ∧
      s'.contribution.payment_status = "pending" :=
  c3_status_recomputed_before_increment contributionA txA cbA 1500
    (by decide) (by decide) (by decide) (by decide) (by decide) (by decide)
    (by norm_num [contributionA])


/-- C4: for a pending transaction whose status query keeps answering neither
success (0) nor failure (1), the status-check task re-schedules itself with
countdown 60·2^retries while retries < 3 (the decorator's max_retries), and
at retries = 3 forces the transaction to failed with external_status
"timeout", leaving the contribution's amount_paid unchanged. -/
theorem c4_backoff_then_timeout (now retries : Nat) (result_code : Option Int)
    (result_desc : String) (id : Nat) (s : LedgerState) (tx : PaymentHistory)
    (htx : s.transactions[id]? = some tx)
    (hpend : tx.status = "pending")
    (h0 : result_code ≠ some 0) (h1 : result_code ≠ some 1) :
    (retries < 3 →
      check_mpesa_payment_status now retries result_code result_desc id s =
        (s, PollOutcome.retryScheduled (60 * 2 ^ retries))) ∧
    (3 ≤ retries →
      check_mpesa_payment_status now retries result_code result_desc id s =
        ({ contribution := update_payment_status s.contribution,
           transactions := s.transactions.set id
             { tx with status := "failed", external_status := "timeout",
                       processed_at := some now,
                       notes := "Payment status check timed out after max retries" } },
         PollOutcome.timedOut) ∧
      (update_payment_status s.contribution).amount_paid = s.contribution.amount_paid) := by
  constructor
  · intro hlt
    simp [check_mpesa_payment_status, htx, hpend, h0, h1, hlt]
  · intro hge
    refine ⟨?_, ?_⟩
    · simp [check_mpesa_payment_status, htx, hpend, h0, h1, Nat.not_lt.mpr hge,
        save_hook, update_payment_status]
    · simp [update_payment_status]

/-- Witness for C4: the 600 row polled with a still-pending answer at
retries 1 (retry in 120 s) and at retries 3 (timeout). -/
theorem c4_backoff_then_timeout_witness :
    check_mpesa_payment_status 5000 1 (some 2) "still pending" 0 stateW =
      (stateW, PollOutcome.retryScheduled (60 * 2 ^ 1)) ∧
    check_mpesa_payment_status 5000 3 (some 2) "still pending" 0 stateW =
      ({ contribution := update_payment_status stateW.contribution,
         transactions := stateW.transactions.set 0
           { txA with status := "failed", external_status := "timeout",
                      processed_at := some 5000,
                      notes := "Payment status check timed out after max retries" } },
       PollOutcome.timedOut) :=
  ⟨(c4_backoff_then_timeout 5000 1 (some 2) "still pending" 0 stateW txA rfl rfl
      (by decide) (by decide)).1 (by decide),
   ((c4_backoff_then_timeout 5000 3 (some 2) "still pending" 0 stateW txA rfl rfl
      (by decide) (by decide)).2 (by decide)).1⟩


/-- C5: a syntactically well-formed webhook whose checkout id matches no
transaction is answered HTTP 400 with ResultCode 1 (the ValidationError
path), not the claimed fixed success envelope with HTTP 200. -/
theorem c5_unmatched_reference_answered_400 :
    (mpesa_callback 1000 (WebhookBody.wellFormed cb_unmatched) state0).1.status = 400 ∧
    (mpesa_callback 1000 (WebhookBody.wellFormed cb_unmatched) state0).1.ResultCode = 1 := by
  with_unfolding_all decide

/-- C5 amended: the callback endpoint answers the fixed success envelope
(HTTP 200, ResultCode 0, "Success") exactly when internal processing
succeeds; malformed JSON is answered 400 / ResultCode 1 / "Invalid JSON";
an internal processing error such as an unmatched external reference is
answered 400 / ResultCode 1 with the error text, leaving the ledger
unchanged. -/
theorem c5_callback_response_envelope (now : Nat) (body : WebhookBody) (s : LedgerState) :
    (body = WebhookBody.malformed →
      mpesa_callback now body s =
        ({ status := 400, ResultCode := 1, ResultDesc := "Invalid JSON" }, s)) ∧
    (∀ cb s' ok, body = WebhookBody.wellFormed cb →
      process_callback now cb s = Except.ok (s', ok) →
      mpesa_callback now body s =
        ({ status := 200, ResultCode := 0, ResultDesc := "Success" }, s')) ∧
    (∀ cb msg, body = WebhookBody.wellFormed cb →
      process_callback now cb s = Except.error msg →
      mpesa_callback now body s =
        ({ status := 400, ResultCode := 1, ResultDesc := msg }, s)) := by
  refine ⟨?_, ?_, ?_⟩
  · intro hb
    subst hb
    rfl
  · intro cb s' ok hb hp
    subst hb
    simp [mpesa_callback, hp]
  · intro cb msg hb hp
    subst hb
    simp [mpesa_callback, hp]

/-- Witness for the C5 amended theorem: the malformed-JSON branch on the
empty ledger. -/
theorem c5_callback_response_envelope_witness :
    mpesa_callback 1000 WebhookBody.malformed state0 =
      ({ status := 400, ResultCode := 1, ResultDesc := "Invalid JSON" }, state0) :=
  (c5_callback_response_envelope 1000 WebhookBody.malformed state0).1 rfl


/-- C6: with a positive outstanding balance remaining = amount_required -
amount_paid, an initiation request for exactly remaining passes every check
and reaches the provider (HTTP 200, success, one new pending row), while a
request for remaining + 1 is rejected with the amount-exceeds message and
leaves the ledger exactly as it was. -/
theorem c6_boundary (s : LedgerState) (cid : Nat)
    (phone fp ck mr : String) (t : Nat)
    (hcid : cid ≠ 0)
    (hphone : phone ≠ "")
    (hv : validate_phone_number phone = Except.ok fp)
    (hbal : 0 < s.contribution.amount_required - s.contribution.amount_paid) :
    ((view_initiate_stk_push
        { contribution_id := some cid, phone_number := some phone,
          amount := some (s.contribution.amount_required - s.contribution.amount_paid) }
        true (GatewayResult.ok ck mr) t s).1.status = 200 ∧
     (view_initiate_stk_push
        { contribution_id := some cid, phone_number := some phone,
          amount := some (s.contribution.amount_required - s.contribution.amount_paid) }
        true (GatewayResult.ok ck mr) t s).1.success = true ∧
     (view_initiate_stk_push
        { contribution_id := some cid, phone_number := some phone,
          amount := some (s.contribution.amount_required - s.contribution.amount_paid) }
        true (GatewayResult.ok ck mr) t s).2.transactions.length =
       s.transactions.length + 1) ∧
    ((view_initiate_stk_push
        { contribution_id := some cid, phone_number := some phone,
          amount := some (s.contribution.amount_required - s.contribution.amount_paid + 1) }
        true (GatewayResult.ok ck mr) t s).1 =
       { status := 400, success := false,
         message := "Amount exceeds remaining contribution amount" } ∧
     (view_initiate_stk_push
        { contribution_id := some cid, phone_number := some phone,
          amount := some (s.contribution.amount_required - s.contribution.amount_paid + 1) }
        true (GatewayResult.ok ck mr) t s).2 = s) := by
  have hpos : (0:ℚ) < s.contribution.amount_required - s.contribution.amount_paid + 1 :=
    hbal.trans (lt_add_one _)
  constructor
  · simp [view_initiate_stk_push, hcid, hphone, hv, hbal.ne', hbal.not_le, lt_irrefl,
      service_initiate_stk_push]
  · simp [view_initiate_stk_push, hcid, hphone, hv, hpos.ne', hpos.not_le, lt_add_one]

/-- Witness for C6: the 1000-required / 0-paid contribution, requesting
exactly 1000 and then 1001. -/
theorem c6_boundary_witness :
    ((view_initiate_stk_push
        { contribution_id := some 1, phone_number := some "0700000000",
          amount := some (stateA0.contribution.amount_required - stateA0.contribution.amount_paid) }
        true (GatewayResult.ok "ws_CO_123456789" "29115-34620561-1") 77 stateA0).1.status = 200 ∧
     (view_initiate_stk_push
        { contribution_id := some 1, phone_number := some "0700000000",
          amount := some (stateA0.contribution.amount_required - stateA0.contribution.amount_paid) }
        true (GatewayResult.ok "ws_CO_123456789" "29115-34620561-1") 77 stateA0).1.success = true ∧
     (view_initiate_stk_push
        { contribution_id := some 1, phone_number := some "0700000000",
          amount := some (stateA0.contribution.amount_required - stateA0.contribution.amount_paid) }
        true (GatewayResult.ok "ws_CO_123456789" "29115-34620561-1") 77 stateA0).2.transactions.length =
       stateA0.transactions.length + 1) ∧
    ((view_initiate_stk_push
        { contribution_id := some 1, phone_number := some "0700000000",
          amount := some (stateA0.contribution.amount_required - stateA0.contribution.amount_paid + 1) }
        true (GatewayResult.ok "ws_CO_123456789" "29115-34620561-1") 77 stateA0).1 =
       { status := 400, success := false,
         message := "Amount exceeds remaining contribution amount" } ∧
     (view_initiate_stk_push
        { contribution_id := some 1, phone_number := some "0700000000",
          amount := some (stateA0.contribution.amount_required - stateA0.contribution.amount_paid + 1) }
        true (GatewayResult.ok "ws_CO_123456789" "29115-34620561-1") 77 stateA0).2 = stateA0) :=
  c6_boundary stateA0 1 "0700000000" "254700000000" "ws_CO_123456789" "29115-34620561-1" 77
    (by decide) (by decide) rfl (by with_unfolding_all decide)


/-- C7: every initiation that does not answer HTTP 200 — a missing field,
an unknown contribution, an invalid phone number, a non-positive amount, an
amount above the outstanding balance, or a synchronous provider rejection —
returns success = false and leaves the ledger state exactly as it was: no
pending transaction row is created. -/
theorem c7_failed_initiation_leaves_ledger_unchanged (req : InitiateRequest)
    (ex : Bool) (gwr : GatewayResult) (t : Nat) (s : LedgerState) :
    (view_initiate_stk_push req ex gwr t s).1.status ≠ 200 →
      (view_initiate_stk_push req ex gwr t s).1.success = false ∧
      (view_initiate_stk_push req ex gwr t s).2 = s := by
  simp only [view_initiate_stk_push, service_initiate_stk_push]
  repeat' split
  all_goals intro h
  all_goals first
    | exact ⟨rfl, rfl⟩
    | exact absurd rfl h

/-- Witness for C7: a request lacking the amount field is answered with an
error and the empty ledger is untouched. -/
theorem c7_failed_initiation_leaves_ledger_unchanged_witness :
    (view_initiate_stk_push req_missing true gw0 5 state0).1.success = false ∧
    (view_initiate_stk_push req_missing true gw0 5 state0).2 = state0 :=
  c7_failed_initiation_leaves_ledger_unchanged req_missing true gw0 5 state0
    (by with_unfolding_all decide)

/-- C9: the 24-hour sweep transitions a stale pending transaction into the
terminal state cancelled while leaving processed_at unset — refuting "every
transition into a terminal state sets processed_at". -/
theorem c9_sweep_cancels_without_processed_at :
    (cleanup_pending_payments 200000 stateW).transactions.map (fun t => t.status) =
      ["cancelled"] ∧
    (cleanup_pending_payments 200000 stateW).transactions.map (fun t => t.processed_at) =
      [none] := by
  with_unfolding_all decide

/-- C9 amended: the callback and poll paths stamp processed_at on each
terminal transition they perform — and stamp it again when a success
callback is replayed for an already-completed transaction (the 1500 stamp
is overwritten at 2000) — whereas the 24-hour sweep cancels rows without
ever touching processed_at and the retry sweep resets failed rows to
pending without clearing it. -/
theorem c9_processed_at_neither_once_nor_every :
    (∀ cutoff c txs, (cleanup_go cutoff c txs).2.map (fun t => t.processed_at) =
        txs.map (fun t => t.processed_at)) ∧
    (∀ cutoff c txs, (retry_go cutoff c txs).2.map (fun t => t.processed_at) =
        txs.map (fun t => t.processed_at)) ∧
    state_cb_once.transactions.map (fun t => t.processed_at) = [some 1500] ∧
    (apply_callback 2000 cb_ok state_cb_once).transactions.map (fun t => t.processed_at) =
      [some 2000] := by
  refine ⟨?_, ?_, ?_, ?_⟩
  · intro cutoff c txs
    induction txs generalizing c with
    | nil => rfl
    | cons t ts ih =>
        simp only [cleanup_go]
        split <;> simp [ih]
  · intro cutoff c txs
    induction txs generalizing c with
    | nil => rfl
    | cons t ts ih =>
        simp only [retry_go]
        split <;> simp [ih]
  · with_unfolding_all decide
  · with_unfolding_all decide


/-- C10: a successful initiation posts Amount = int(amount) (truncation) to
the provider while recording the exact decimal amount on the new pending
row; for any non-integer amount the two necessarily differ. -/
theorem c10_payload_amount_truncated (ck mr phone ref : String) (t : Nat)
    (s : LedgerState) (amount : ℚ) (hnonint : amount.den ≠ 1) :
    ∃ s' r, service_initiate_stk_push (GatewayResult.ok ck mr) phone amount ref t s =
        Except.ok (s', r) ∧
      r.payload.Amount = pyInt amount ∧
      s'.transactions.map (fun tx => tx.amount) =
        s.transactions.map (fun tx => tx.amount) ++ [amount] ∧
      (pyInt amount : ℚ) ≠ amount := by
  refine ⟨_, _, rfl, rfl, by simp, ?_⟩
  intro h
  apply hnonint
  calc amount.den = ((pyInt amount : ℚ)).den := by rw [h]
    _ = 1 := Rat.den_intCast _

/-- Witness for C10: amount 600.5 (= 1201/2) is posted as 600 but recorded
as 600.5. -/
theorem c10_payload_amount_truncated_witness :
    ∃ s' r, service_initiate_stk_push (GatewayResult.ok "ck" "mr") "254700000000"
        (1201 / 2) "CONT_1" 9 state0 = Except.ok (s', r) ∧
      r.payload.Amount = pyInt (1201 / 2) ∧
      s'.transactions.map (fun tx => tx.amount) =
        state0.transactions.map (fun tx => tx.amount) ++ [1201 / 2] ∧
      (pyInt (1201 / 2) : ℚ) ≠ 1201 / 2 :=
  c10_payload_amount_truncated "ck" "mr" "254700000000" "CONT_1" 9 state0 (1201 / 2)
    (by with_unfolding_all decide)


end Chuopay
